import Mathlib

/-
Verification of the telephony / AI voice streaming bridge.

Shallow embedding of the Python sources:
  - app/utils/audio.py          (audio codec: mu-law / A-law <-> PCM16)
  - app/services/openai_voice_client.py  (session buffer, flush, event loop, close)
  - app/services/twilio_stream_handler.py (registries, forwarding, teardown)
  - app/services/conversation_state.py    (conversation context store)

Conventions of the embedding:
  - Byte strings are `List Nat` with each element < 256.
  - Base64 transport is a bijection between valid base64 text and byte
    strings; payloads that the code passes around base64-encoded are
    modelled by their decoded byte content.  A base64 *decoding failure*
    is modelled by `Option` (`none` = invalid base64 input).
  - Python dicts keyed by stream id are association lists
    `List (String × α)` (our operations never create duplicate keys).
  - Fallible code returns `Except String`; an exception escaping a
    function is modelled by an explicit `Bool` result where a claim
    depends on it.
-/

set_option linter.unusedVariables false

namespace ARS

/-! ### Association lists (Python `Dict[str, α]`) -/

def lookupA {α : Type} : List (String × α) → String → Option α
  | [], _ => none
  | (k, v) :: rest, key => if k = key then some v else lookupA rest key

def setA {α : Type} : List (String × α) → String → α → List (String × α)
  | [], key, v => [(key, v)]
  | (k, w) :: rest, key, v =>
      if k = key then (key, v) :: rest else (k, w) :: setA rest key v

def eraseA {α : Type} : List (String × α) → String → List (String × α)
  | [], _ => []
  | (k, w) :: rest, key =>
      if k = key then eraseA rest key else (k, w) :: eraseA rest key

/-! ### Audio codec (`app/utils/audio.py` over the CPython `audioop` module)

`audioop.ulaw2lin`, `audioop.alaw2lin`, `audioop.lin2ulaw` are embedded
faithfully from CPython's `audioop.c` (`st_ulaw2linear16`,
`st_alaw2linear16`, `st_14linear2ulaw` with the 16-bit sample shifted
right arithmetically by 2).  PCM16 data is a little-endian byte list,
2 bytes per mono sample. -/

def int16ToBytes (v : Int) : List Nat :=
  let u := (v % 65536).toNat
  [u % 256, u / 256]

def bytesToInt16 (lo hi : Nat) : Int :=
  let u := (lo &&& 0xFF) + 256 * (hi &&& 0xFF)
  if u < 32768 then (u : Int) else (u : Int) - 65536

/-- Decode of one mu-law byte (CPython `st_ulaw2linear16` table formula). -/
def ulawDecodeByte (b : Nat) : Int :=
  let u := 0xFF ^^^ (b &&& 0xFF)
  let t : Nat := (((u &&& 0xF) <<< 3) + 0x84) <<< ((u >>> 4) &&& 0x7)
  if u &&& 0x80 ≠ 0 then (0x84 : Int) - (t : Int) else (t : Int) - 0x84

/-- Decode of one A-law byte (CPython `st_alaw2linear16` table formula). -/
def alawDecodeByte (b : Nat) : Int :=
  let u := (b &&& 0xFF) ^^^ 0x55
  let t0 := (u &&& 0xF) <<< 4
  let seg := (u &&& 0x70) >>> 4
  let t : Nat := if seg = 0 then t0 + 8 else (t0 + 0x108) <<< (seg - 1)
  if u &&& 0x80 ≠ 0 then (t : Int) else -(t : Int)

/-- Segment search over `seg_uend` (CPython `search`). -/
def segSearch (v : Int) : Nat :=
  if v ≤ 0x3F then 0 else if v ≤ 0x7F then 1 else if v ≤ 0xFF then 2
  else if v ≤ 0x1FF then 3 else if v ≤ 0x3FF then 4 else if v ≤ 0x7FF then 5
  else if v ≤ 0xFFF then 6 else if v ≤ 0x1FFF then 7 else 8

/-- CPython `st_14linear2ulaw` (14-bit input, CLIP 8159, BIAS/4 = 33). -/
def st14linear2ulaw (pcmVal : Int) : Nat :=
  let mask : Nat := if pcmVal < 0 then 0x7F else 0xFF
  let mag : Int := if pcmVal < 0 then -pcmVal else pcmVal
  let mag : Int := if mag > 8159 then 8159 else mag
  let mag : Int := mag + 33
  let seg := segSearch mag
  if seg ≥ 8 then 0x7F ^^^ mask
  else (((seg <<< 4) ||| ((mag.toNat >>> (seg + 1)) &&& 0xF)) ^^^ mask)

/-- mu-law encoding of one 16-bit sample: `st_14linear2ulaw(sample >> 2)`. -/
def lin2ulawSample (v : Int) : Nat := st14linear2ulaw (Int.fdiv v 4)

/-- `audioop.ulaw2lin(b, 2)`: one byte in, one little-endian PCM16 sample out. -/
def ulaw2lin : List Nat → List Nat
  | [] => []
  | b :: rest => int16ToBytes (ulawDecodeByte b) ++ ulaw2lin rest

/-- `audioop.alaw2lin(b, 2)`. -/
def alaw2lin : List Nat → List Nat
  | [] => []
  | b :: rest => int16ToBytes (alawDecodeByte b) ++ alaw2lin rest

def lin2ulawGo : List Nat → List Nat
  | lo :: hi :: rest => lin2ulawSample (bytesToInt16 lo hi) :: lin2ulawGo rest
  | _ => []

/-- `audioop.lin2ulaw(b, 2)`: raises unless the byte count is a whole
number of 2-byte frames. -/
def lin2ulaw (bs : List Nat) : Except String (List Nat) :=
  if bs.length % 2 ≠ 0 then .error "not a whole number of frames"
  else .ok (lin2ulawGo bs)

/-- Modelled from the spec: stands in for the CPython stdlib
`audioop.ratecv` sample-rate converter, which is not part of this
repository's sources.  Per the spec it resamples with linear-interpolation
semantics mapping `n` frames to about `n * dst / src` frames; like the
stdlib it rejects input that is not a whole number of 2-byte frames.  No
claim in this development depends on its output values — every verified
path either never reaches it (equal rates) or fails before it. -/
def ratecv (bs : List Nat) (srcRate dstRate : Nat) : Except String (List Nat) :=
  if bs.length % 2 ≠ 0 then .error "not a whole number of frames"
  else if srcRate = 0 ∨ dstRate = 0 then .error "sampling rate not > 0"
  else
    let nframes := bs.length / 2
    let outframes := (nframes * dstRate) / srcRate
    .ok (List.flatten ((List.range outframes).map (fun i =>
      let j := (i * srcRate) / dstRate
      [bs.getD (2 * j) 0, bs.getD (2 * j + 1) 0])))

/-- The encoding dispatch of `convert_audio_to_pcm16` (the
`if/elif/else` chain before any rate conversion). -/
def decodeByEncoding (raw : List Nat) (encoding : String) : Except String (List Nat) :=
  if encoding = "audio/x-mulaw" then .ok (ulaw2lin raw)
  else if encoding = "audio/x-alaw" then .ok (alaw2lin raw)
  else if encoding = "audio/x-raw" ∨ encoding = "audio/L16" then .ok raw
  else .error ("Unsupported audio encoding: " ++ encoding)

/-- `convert_audio_to_pcm16` (audio.py): decode by encoding tag, then
resample only when the rates differ. -/
def convert_audio_to_pcm16 (raw : List Nat) (encoding : String)
    (source_sample_rate target_sample_rate : Nat) : Except String (List Nat) :=
  match decodeByEncoding raw encoding with
  | .error e => .error e
  | .ok pcm16 =>
      if source_sample_rate ≠ target_sample_rate then
        ratecv pcm16 source_sample_rate target_sample_rate
      else
        .ok pcm16

/-- `convert_pcm16_to_mulaw` (audio.py): resample only when the rates
differ, then mu-law encode. -/
def convert_pcm16_to_mulaw (raw : List Nat)
    (source_sample_rate target_sample_rate : Nat) : Except String (List Nat) :=
  match (if source_sample_rate ≠ target_sample_rate then
           ratecv raw source_sample_rate target_sample_rate
         else .ok raw) with
  | .error e => .error e
  | .ok bs => lin2ulaw bs

/-! ### Conversation context store (`app/services/conversation_state.py`)

`ConversationStateManager._session_context : Dict[str, Dict[str, str]]`. -/

abbrev ConvCtx : Type := List (String × List (String × String))

/-- `ConversationStateManager.update_context`: `setdefault(sid, {})` then
`session_data[key] = value`. -/
def update_context (ctx : ConvCtx) (stream_sid key value : String) : ConvCtx :=
  match lookupA ctx stream_sid with
  | none => setA ctx stream_sid [(key, value)]
  | some session_data => setA ctx stream_sid (setA session_data key value)

/-- `ConversationStateManager.clear`: `pop(stream_sid, None)`. -/
def clearContext (ctx : ConvCtx) (stream_sid : String) : ConvCtx :=
  eraseA ctx stream_sid

/-! ### OpenAI voice client (`app/services/openai_voice_client.py`) -/

def MIN_COMMIT_SAMPLES : Nat := 2400

/-- `RealtimeSession` dataclass.  The websocket handle is an opaque id;
`commit_task` is modelled by whether a not-yet-done debounced flush task
is outstanding. -/
structure RealtimeSession where
  websocket : Nat := 0
  is_waiting_response : Bool := false
  transcript_buffer : String := ""
  audio_buffer : List (List Nat) := []
  pending_samples : Nat := 0
  commit_scheduled : Bool := false
  session_updated : Bool := false
  deriving DecidableEq

/-- A message sent on the AI-side websocket by the buffer flush. -/
inductive AIMessage where
  | inputAudioBufferAppend (audio : List Nat)
  deriving DecidableEq

/-- `OpenAIVoiceClient._sessions`. -/
structure OpenAIState where
  sessions : List (String × RealtimeSession) := []
  deriving DecidableEq

/-- `OpenAIVoiceClient._flush_audio_buffer`: skip when below the sample
threshold or when the buffer is empty; otherwise send one
`input_audio_buffer.append` per buffered chunk, in order, then clear the
buffer and zero the counter.  Returns the updated session and the
messages sent on the AI websocket. -/
def flush_audio_buffer (s : RealtimeSession) : RealtimeSession × List AIMessage :=
  if s.pending_samples < MIN_COMMIT_SAMPLES then (s, [])
  else if s.audio_buffer = [] then (s, [])
  else ({ s with audio_buffer := [], pending_samples := 0 },
        s.audio_buffer.map AIMessage.inputAudioBufferAppend)

/-- `OpenAIVoiceClient.send_audio_chunk`: no-op for an unknown stream id
or undecodable base64 (`chunk = none`); otherwise append the chunk,
count its samples (2 bytes per sample), and when the running count
reaches the threshold cancel any pending debounced flush and schedule a
new one (`commit_scheduled`).  Nothing is sent on the websocket here. -/
def send_audio_chunk (st : OpenAIState) (stream_sid : String)
    (chunk : Option (List Nat)) : OpenAIState :=
  match lookupA st.sessions stream_sid with
  | none => st
  | some s =>
      match chunk with
      | none => st
      | some audio_bytes =>
          let s := { s with
            audio_buffer := s.audio_buffer ++ [audio_bytes],
            pending_samples := s.pending_samples + audio_bytes.length / 2 }
          let s := if MIN_COMMIT_SAMPLES ≤ s.pending_samples then
              { s with commit_scheduled := true }
            else s
          { st with sessions := setA st.sessions stream_sid s }

/-- `OpenAIVoiceClient.close_session`: pop the session (no-op when
absent), cancel the pending flush task, flush once more when the
threshold is still met (failures there are caught), clear the buffer,
then close the websocket — the one step whose exception is *not* caught
locally, modelled by `wsCloseRaises`.  Returns the new state, the
messages flushed, and whether an exception escaped. -/
def close_session (st : OpenAIState) (stream_sid : String)
    (wsCloseRaises : Bool) : OpenAIState × List AIMessage × Bool :=
  match lookupA st.sessions stream_sid with
  | none => (st, [], false)
  | some s =>
      let st' : OpenAIState := { sessions := eraseA st.sessions stream_sid }
      let sent :=
        if MIN_COMMIT_SAMPLES ≤ s.pending_samples ∧ s.audio_buffer ≠ [] then
          (flush_audio_buffer s).2
        else []
      (st', sent, wsCloseRaises)

/-! ### The AI event state machine (`_receive_and_forward`'s dispatch)

Events are JSON payloads dispatched on their `"type"` string; each
constructor carries the payload fields the handler reads.  Audio deltas
travel base64-encoded and are modelled by decoded bytes; `none` models a
missing `"delta"` field. -/

inductive AIEvent where
  | sessionCreated
  | sessionUpdated
  | inputAudioBufferCommitted
  | transcriptionCompleted (transcript : String)
  | responseCreated
  | responseOutputAudioDelta (delta : Option (List Nat))
  | responseOutputAudioDone
  | responseOutputItemAdded
  | responseContentPartAdded
  | responseOutputAudioTranscriptDelta (delta : String)
  | responseOutputTextDelta (delta : String)
  | responseDone
  | responseCompleted
  | responseError
  | errorEvent
  | unrecognized (ty : String)
  deriving DecidableEq

/-- The `"type"` string of an event payload. -/
def AIEvent.eventType : AIEvent → String
  | .sessionCreated => "session.created"
  | .sessionUpdated => "session.updated"
  | .inputAudioBufferCommitted => "input_audio_buffer.committed"
  | .transcriptionCompleted _ => "conversation.item.input_audio_transcription.completed"
  | .responseCreated => "response.created"
  | .responseOutputAudioDelta _ => "response.output_audio.delta"
  | .responseOutputAudioDone => "response.output_audio.done"
  | .responseOutputItemAdded => "response.output_item.added"
  | .responseContentPartAdded => "response.content_part.added"
  | .responseOutputAudioTranscriptDelta _ => "response.output_audio_transcript.delta"
  | .responseOutputTextDelta _ => "response.output_text.delta"
  | .responseDone => "response.done"
  | .responseCompleted => "response.completed"
  | .responseError => "response.error"
  | .errorEvent => "error"
  | .unrecognized ty => ty

/-- The event type strings that have a branch in the `if/elif` chain of
`_receive_and_forward`; every other type falls through with no effect. -/
def recognizedEventTypes : List String :=
  ["session.created", "session.updated", "input_audio_buffer.committed",
   "conversation.item.input_audio_transcription.completed",
   "response.created", "response.output_audio.delta",
   "response.output_audio.done", "response.output_item.added",
   "response.content_part.added", "response.output_audio_transcript.delta",
   "response.output_text.delta", "response.done", "response.completed",
   "response.error", "error"]

/-- Outbound side effect produced while handling one AI event. -/
inductive Effect where
  | callSendAudioToTwilio (stream_sid : String) (payload : List Nat)
  deriving DecidableEq

/-- One iteration of `_receive_and_forward`'s event dispatch for session
`s` of stream `stream_sid`.  `hasHandler` models
`self._twilio_handler is not None`.  Returns the updated session, the
updated conversation context store, and the outbound effects. -/
def handle_openai_event (hasHandler : Bool) (stream_sid : String)
    (s : RealtimeSession) (ctx : ConvCtx) :
    AIEvent → RealtimeSession × ConvCtx × List Effect
  | .sessionCreated => (s, ctx, [])
  | .sessionUpdated => ({ s with session_updated := true }, ctx, [])
  | .inputAudioBufferCommitted => (s, ctx, [])
  | .transcriptionCompleted _ => (s, ctx, [])
  | .responseCreated => (s, ctx, [])
  | .responseOutputAudioDelta delta =>
      match delta with
      | some d =>
          if d ≠ [] ∧ hasHandler then
            (s, ctx, [Effect.callSendAudioToTwilio stream_sid d])
          else (s, ctx, [])
      | none => (s, ctx, [])
  | .responseOutputAudioDone => (s, ctx, [])
  | .responseOutputItemAdded => (s, ctx, [])
  | .responseContentPartAdded => (s, ctx, [])
  | .responseOutputAudioTranscriptDelta _ => (s, ctx, [])
  | .responseOutputTextDelta delta =>
      ({ s with transcript_buffer := s.transcript_buffer ++ delta }, ctx, [])
  | .responseDone =>
      let s1 := { s with is_waiting_response := false }
      if s.transcript_buffer ≠ "" then
        ({ s1 with transcript_buffer := "" },
         update_context ctx stream_sid "last_ai_response" s.transcript_buffer, [])
      else (s1, ctx, [])
  | .responseCompleted =>
      let s1 := { s with is_waiting_response := false }
      if s.transcript_buffer ≠ "" then
        ({ s1 with transcript_buffer := "" },
         update_context ctx stream_sid "last_ai_response" s.transcript_buffer, [])
      else (s1, ctx, [])
  | .responseError => ({ s with is_waiting_response := false }, ctx, [])
  | .errorEvent => ({ s with is_waiting_response := false }, ctx, [])
  | .unrecognized _ => (s, ctx, [])

/-! ### Twilio stream handler (`app/services/twilio_stream_handler.py`) -/

structure AudioConfig where
  encoding : String
  sample_rate : Nat
  deriving DecidableEq

/-- `TwilioStreamHandler`'s two registries; websocket handles are opaque
ids. -/
structure TwilioState where
  twilio_connections : List (String × Nat) := []
  stream_audio_config : List (String × AudioConfig) := []
  deriving DecidableEq

/-- A framed message sent on the telephony websocket
(`{event:"media", streamSid, media:{payload}}`). -/
inductive TwilioMessage where
  | media (streamSid : String) (payload : List Nat)
  deriving DecidableEq

/-- `TwilioStreamHandler.register_stream`: store the websocket and the
default audio config (mu-law @ 8000 Hz). -/
def register_stream (tst : TwilioState) (stream_sid : String) (websocket : Nat) :
    TwilioState :=
  { twilio_connections := setA tst.twilio_connections stream_sid websocket,
    stream_audio_config :=
      setA tst.stream_audio_config stream_sid ⟨"audio/x-mulaw", 8000⟩ }

/-- `TwilioStreamHandler.configure_stream_audio`: no-op for an unknown
stream id; otherwise overwrite only the fields given Python-truthy
values (`if encoding:` / `if sample_rate:` — `none`, `""` and `0` are
falsy). -/
def configure_stream_audio (tst : TwilioState) (stream_sid : String)
    (encoding : Option String) (sample_rate : Option Nat) : TwilioState :=
  match lookupA tst.stream_audio_config stream_sid with
  | none => tst
  | some audio_config =>
      let cfg1 := match encoding with
        | some e => if e ≠ "" then { audio_config with encoding := e } else audio_config
        | none => audio_config
      let cfg2 := match sample_rate with
        | some r => if r ≠ 0 then { cfg1 with sample_rate := r } else cfg1
        | none => cfg1
      { tst with stream_audio_config := setA tst.stream_audio_config stream_sid cfg2 }

/-- `TwilioStreamHandler.forward_media_chunk`: look up the stream's
audio config (no-op when missing), convert the chunk to PCM16@16kHz
(the broad `except` logs and drops the chunk on any conversion error),
then hand the converted chunk to `send_audio_chunk`.  Only the OpenAI
client state can change. -/
def forward_media_chunk (tst : TwilioState) (ost : OpenAIState)
    (stream_sid : String) (chunk : List Nat) : OpenAIState :=
  match lookupA tst.stream_audio_config stream_sid with
  | none => ost
  | some audio_config =>
      match convert_audio_to_pcm16 chunk audio_config.encoding
          audio_config.sample_rate 16000 with
      | .error _ => ost
      | .ok converted => send_audio_chunk ost stream_sid (some converted)

/-- `TwilioStreamHandler.send_audio_to_twilio`: no-op for an unknown
stream id; convert PCM16@24kHz to mu-law@8kHz (errors are caught and the
chunk dropped); on success emit one framed `media` message on the
telephony websocket. -/
def send_audio_to_twilio (tst : TwilioState) (stream_sid : String)
    (audio_payload : List Nat) : List TwilioMessage :=
  match lookupA tst.twilio_connections stream_sid with
  | none => []
  | some _websocket =>
      match convert_pcm16_to_mulaw audio_payload 24000 8000 with
      | .error _ => []
      | .ok twilio_payload => [TwilioMessage.media stream_sid twilio_payload]

/-- `TwilioStreamHandler.terminate_session`: `try: close_session
finally: pop both registries; clear the context entry`.  The `finally`
block always runs, and an exception escaping `close_session` is
re-raised to the caller once it has run (there is no `except` clause).
Returns the three updated states, the messages flushed during close,
and whether an exception propagated out of `terminate_session`. -/
def terminate_session (ost : OpenAIState) (tst : TwilioState) (ctx : ConvCtx)
    (stream_sid : String) (wsCloseRaises : Bool) :
    OpenAIState × TwilioState × ConvCtx × List AIMessage × Bool :=
  let res := close_session ost stream_sid wsCloseRaises
  (res.1,
   { twilio_connections := eraseA tst.twilio_connections stream_sid,
     stream_audio_config := eraseA tst.stream_audio_config stream_sid },
   clearContext ctx stream_sid,
   res.2.1, res.2.2)

/-! ### Helper definitions used by the verification -/

/-- The encoding tags accepted by `convert_audio_to_pcm16`. -/
def supportedEncodingTags : List String :=
  ["audio/x-mulaw", "audio/x-alaw", "audio/x-raw", "audio/L16"]

/-- A sequence of `send_audio_chunk` calls with valid base64 chunks. -/
def sendChunks (ost : OpenAIState) (stream_sid : String)
    (chunks : List (List Nat)) : OpenAIState :=
  chunks.foldl (fun st c => send_audio_chunk st stream_sid (some c)) ost

/-- Total decoded sample count of a chunk sequence (2 bytes per sample). -/
def totalSamples (chunks : List (List Nat)) : Nat :=
  (chunks.map (fun c => c.length / 2)).sum

/-- Serialize/deserialize round trip of one int16 through two
little-endian bytes, as done by `ulaw2lin` followed by `lin2ulaw`. -/
def int16RoundTrip (v : Int) : Int :=
  bytesToInt16 ((v % 65536).toNat % 256) ((v % 65536).toNat / 256)

/-- Concrete session with one above-threshold buffered chunk. -/
def exSessionFull : RealtimeSession :=
  { audio_buffer := [[0, 1, 2, 3], [4, 5]], pending_samples := 2400 }

/-- Concrete client state holding one registered session `"S1"`. -/
def exOpenAI : OpenAIState := { sessions := [("S1", {})] }

/-- Concrete Twilio-side registries holding stream `"S1"`. -/
def exTwilio : TwilioState :=
  { twilio_connections := [("S1", 7)],
    stream_audio_config := [("S1", ⟨"audio/x-mulaw", 8000⟩)] }

/-- Concrete context store with an entry for `"S1"`. -/
def exCtx : ConvCtx := [("S1", [("context", "vip caller")])]

/-! ### Association list lemmas -/

theorem lookupA_setA_self {α : Type} (l : List (String × α)) (k : String) (v : α) :
    lookupA (setA l k v) k = some v := by
  induction l with
  | nil => simp [setA, lookupA]
  | cons hd tl ih =>
      obtain ⟨k1, v1⟩ := hd
      by_cases h : k1 = k
      · simp [setA, h, lookupA]
      · simp [setA, h, lookupA, ih]

theorem lookupA_eraseA_self {α : Type} (l : List (String × α)) (k : String) :
    lookupA (eraseA l k) k = none := by
  induction l with
  | nil => simp [eraseA, lookupA]
  | cons hd tl ih =>
      obtain ⟨k1, v1⟩ := hd
      by_cases h : k1 = k
      · simp [eraseA, h, ih]
      · simp [eraseA, h, lookupA, ih]

theorem eraseA_of_lookupA_none {α : Type} (l : List (String × α)) (k : String)
    (h : lookupA l k = none) : eraseA l k = l := by
  induction l with
  | nil => simp [eraseA]
  | cons hd tl ih =>
      obtain ⟨k1, v1⟩ := hd
      by_cases hk : k1 = k
      · simp [lookupA, hk] at h
      · simp [lookupA, hk] at h
        simp [eraseA, hk, ih h]

theorem eraseA_eraseA {α : Type} (l : List (String × α)) (k : String) :
    eraseA (eraseA l k) k = eraseA l k :=
  eraseA_of_lookupA_none _ _ (lookupA_eraseA_self l k)

/-! ### Claim theorems -/

/-- C1: when `pending_samples` is at or above the 2400-sample threshold
and the buffer is non-empty, a flush sends every buffered chunk as an
`input_audio_buffer.append` message in the order appended, after which
the buffer is empty and `pending_samples` is 0; and no flush ever leaves
the buffer partially drained (it either changes nothing and sends
nothing, or fully drains). -/
theorem flush_drains_fully_in_order (s : RealtimeSession)
    (h1 : MIN_COMMIT_SAMPLES ≤ s.pending_samples) (h2 : s.audio_buffer ≠ []) :
    (flush_audio_buffer s).2 = s.audio_buffer.map AIMessage.inputAudioBufferAppend ∧
    (flush_audio_buffer s).1.audio_buffer = [] ∧
    (flush_audio_buffer s).1.pending_samples = 0 ∧
    (∀ t : RealtimeSession,
      ((flush_audio_buffer t).1 = t ∧ (flush_audio_buffer t).2 = []) ∨
      ((flush_audio_buffer t).1.audio_buffer = [] ∧
       (flush_audio_buffer t).1.pending_samples = 0 ∧
       (flush_audio_buffer t).2 =
         t.audio_buffer.map AIMessage.inputAudioBufferAppend)) := by
  have hlt : ¬ s.pending_samples < MIN_COMMIT_SAMPLES := by omega
  refine ⟨?_, ?_, ?_, ?_⟩
  · simp [flush_audio_buffer, hlt, h2]
  · simp [flush_audio_buffer, hlt, h2]
  · simp [flush_audio_buffer, hlt, h2]
  · intro t
    by_cases ht1 : t.pending_samples < MIN_COMMIT_SAMPLES
    · left; simp [flush_audio_buffer, ht1]
    · by_cases ht2 : t.audio_buffer = []
      · left; simp [flush_audio_buffer, ht1, ht2]
      · right; simp [flush_audio_buffer, ht1, ht2]

/-- Witness for C1 at a concrete two-chunk session. -/
theorem flush_drains_fully_in_order_witness :
    (flush_audio_buffer exSessionFull).2 =
      [AIMessage.inputAudioBufferAppend [0, 1, 2, 3],
       AIMessage.inputAudioBufferAppend [4, 5]] ∧
    (flush_audio_buffer exSessionFull).1.audio_buffer = [] ∧
    (flush_audio_buffer exSessionFull).1.pending_samples = 0 :=
  ⟨(flush_drains_fully_in_order exSessionFull (by decide) (by decide)).1,
   (flush_drains_fully_in_order exSessionFull (by decide) (by decide)).2.1,
   (flush_drains_fully_in_order exSessionFull (by decide) (by decide)).2.2.1⟩

/-- Below-threshold append run never schedules a flush (helper for C2,
by induction over the chunk sequence). -/
theorem sendChunks_below_threshold (chunks : List (List Nat)) :
    ∀ (ost : OpenAIState) (sid : String) (s : RealtimeSession),
    lookupA ost.sessions sid = some s →
    s.commit_scheduled = false →
    s.pending_samples + totalSamples chunks < MIN_COMMIT_SAMPLES →
    ∃ s1, lookupA (sendChunks ost sid chunks).sessions sid = some s1 ∧
      s1.commit_scheduled = false ∧
      s1.audio_buffer = s.audio_buffer ++ chunks ∧
      s1.pending_samples = s.pending_samples + totalSamples chunks := by
  induction chunks with
  | nil =>
      intro ost sid s hs hc h
      exact ⟨s, by simpa [sendChunks] using hs, hc, by simp, by simp [totalSamples]⟩
  | cons c rest ih =>
      intro ost sid s hs hc h
      have hts : totalSamples (c :: rest) = c.length / 2 + totalSamples rest := by
        simp [totalSamples]
      have hlt : ¬ MIN_COMMIT_SAMPLES ≤ s.pending_samples + c.length / 2 := by
        omega
      set s0 : RealtimeSession :=
        { s with audio_buffer := s.audio_buffer ++ [c],
                 pending_samples := s.pending_samples + c.length / 2 } with hs0
      have hsend : send_audio_chunk ost sid (some c) = ⟨setA ost.sessions sid s0⟩ := by
        simp [send_audio_chunk, hs, hlt, hs0]
      have hfold : sendChunks ost sid (c :: rest) =
          sendChunks ⟨setA ost.sessions sid s0⟩ sid rest := by
        simp [sendChunks, hsend]
      rw [hfold]
      obtain ⟨s1, h1, h2, h3, h4⟩ :=
        ih ⟨setA ost.sessions sid s0⟩ sid s0 (lookupA_setA_self _ _ _)
          (by rw [hs0]; exact hc) (by rw [hs0]; simp; omega)
      refine ⟨s1, h1, h2, ?_, ?_⟩
      · rw [hs0] at h3
        simpa [List.append_assoc] using h3
      · rw [hs0] at h4
        simp at h4
        omega

/-- C2: a run of `send_audio_chunk` calls on a registered session whose
cumulative sample count stays strictly below the 2400-sample threshold
never schedules a flush and drains nothing (the buffer just grows and
the counter just accumulates); and `_flush_audio_buffer` below the
threshold is a no-op that sends nothing. -/
theorem below_threshold_never_flushes (ost : OpenAIState) (sid : String)
    (s : RealtimeSession) (chunks : List (List Nat))
    (hs : lookupA ost.sessions sid = some s)
    (hc : s.commit_scheduled = false)
    (h : s.pending_samples + totalSamples chunks < MIN_COMMIT_SAMPLES) :
    (∃ s1, lookupA (sendChunks ost sid chunks).sessions sid = some s1 ∧
      s1.commit_scheduled = false ∧
      s1.audio_buffer = s.audio_buffer ++ chunks ∧
      s1.pending_samples = s.pending_samples + totalSamples chunks) ∧
    (∀ t : RealtimeSession, t.pending_samples < MIN_COMMIT_SAMPLES →
      flush_audio_buffer t = (t, [])) := by
  refine ⟨sendChunks_below_threshold chunks ost sid s hs hc h, ?_⟩
  intro t ht
  simp [flush_audio_buffer, ht]

/-- Witness for C2: two small chunks on a fresh session. -/
theorem below_threshold_never_flushes_witness :
    ∃ s1, lookupA (sendChunks exOpenAI "S1" [[0, 1], [2, 3, 4, 5]]).sessions "S1" =
        some s1 ∧
      s1.commit_scheduled = false ∧
      s1.audio_buffer = [[0, 1], [2, 3, 4, 5]] ∧
      s1.pending_samples = 3 := by
  obtain ⟨⟨s1, h1, h2, h3, h4⟩, _⟩ :=
    below_threshold_never_flushes exOpenAI "S1" {} [[0, 1], [2, 3, 4, 5]]
      (by decide) rfl (by decide)
  exact ⟨s1, h1, h2, by simpa using h3, by simpa [totalSamples] using h4⟩

/-- C3: a terminal response event (`response.done` or
`response.completed`) clears `is_waiting_response`; when the transcript
accumulator is non-empty its contents are persisted to the context store
under `"last_ai_response"` for that stream id and the accumulator is
reset to empty; when it is empty nothing is persisted. -/
theorem terminal_event_persists_transcript (hasHandler : Bool)
    (stream_sid : String) (s : RealtimeSession) (ctx : ConvCtx) (e : AIEvent)
    (he : e = AIEvent.responseDone ∨ e = AIEvent.responseCompleted) :
    (handle_openai_event hasHandler stream_sid s ctx e).1.is_waiting_response = false ∧
    (s.transcript_buffer ≠ "" →
      (handle_openai_event hasHandler stream_sid s ctx e).2.1 =
        update_context ctx stream_sid "last_ai_response" s.transcript_buffer ∧
      (handle_openai_event hasHandler stream_sid s ctx e).1.transcript_buffer = "") ∧
    (s.transcript_buffer = "" →
      (handle_openai_event hasHandler stream_sid s ctx e).2.1 = ctx) := by
  rcases he with rfl | rfl <;>
    by_cases hb : s.transcript_buffer = "" <;>
    simp [handle_openai_event, hb]

/-- Witness for C3 at a concrete session with accumulated transcript. -/
theorem terminal_event_persists_transcript_witness :
    (handle_openai_event true "S1" { transcript_buffer := "hello" } []
        AIEvent.responseDone).1.is_waiting_response = false ∧
    (handle_openai_event true "S1" { transcript_buffer := "hello" } []
        AIEvent.responseDone).2.1 =
      update_context [] "S1" "last_ai_response" "hello" ∧
    (handle_openai_event true "S1" { transcript_buffer := "hello" } []
        AIEvent.responseDone).1.transcript_buffer = "" := by
  have h := terminal_event_persists_transcript true "S1"
    { transcript_buffer := "hello" } [] AIEvent.responseDone (Or.inl rfl)
  exact ⟨h.1, (h.2.1 (by decide)).1, (h.2.1 (by decide)).2⟩

/-- C4: an AI event whose type string is not one of the recognized event
types leaves the session (including `is_waiting_response`, the
transcript accumulator, the audio buffer and `pending_samples`) and the
context store unchanged, and produces no outbound effect. -/
theorem unrecognized_event_is_noop (hasHandler : Bool) (stream_sid : String)
    (s : RealtimeSession) (ctx : ConvCtx) (e : AIEvent)
    (he : e.eventType ∉ recognizedEventTypes) :
    handle_openai_event hasHandler stream_sid s ctx e = (s, ctx, []) := by
  cases e
  case unrecognized ty => rfl
  all_goals
    simp only [AIEvent.eventType] at he
    exact absurd (by decide) he

/-- Witness for C4 on a concrete unhandled event type. -/
theorem unrecognized_event_is_noop_witness :
    (AIEvent.unrecognized "rate_limits.updated").eventType ∉ recognizedEventTypes ∧
    handle_openai_event true "S1" exSessionFull exCtx
        (AIEvent.unrecognized "rate_limits.updated") =
      (exSessionFull, exCtx, []) :=
  ⟨by decide,
   unrecognized_event_is_noop true "S1" exSessionFull exCtx
     (AIEvent.unrecognized "rate_limits.updated") (by decide)⟩

/-- C5 counterexample: for a registered stream whose AI-side close
raises, `terminate_session` does clear every registry and the context
entry, yet the exception propagates to its caller (the code uses
`try/finally` with no `except`), refuting the claim that the error is
caught locally and not propagated. -/
theorem terminate_propagates_close_error :
    (terminate_session exOpenAI exTwilio exCtx "S1" true).2.2.2.2 = true ∧
    lookupA (terminate_session exOpenAI exTwilio exCtx "S1" true).1.sessions
      "S1" = none ∧
    lookupA (terminate_session exOpenAI exTwilio exCtx "S1"
      true).2.1.twilio_connections "S1" = none ∧
    lookupA (terminate_session exOpenAI exTwilio exCtx "S1"
      true).2.1.stream_audio_config "S1" = none ∧
    lookupA (terminate_session exOpenAI exTwilio exCtx "S1" true).2.2.1
      "S1" = none := by
  decide

/-- C5 (amended): `terminate_session` removes the stream from the
AI-session map, the telephony-connection registry and the audio-config
registry and clears its context entry even when closing the AI session
raises — the `finally` block always runs — but the exception is
re-raised to the caller after that cleanup rather than caught. -/
theorem terminate_cleans_up_despite_close_error (ost : OpenAIState)
    (tst : TwilioState) (ctx : ConvCtx) (stream_sid : String)
    (wsCloseRaises : Bool) :
    lookupA (terminate_session ost tst ctx stream_sid
      wsCloseRaises).1.sessions stream_sid = none ∧
    lookupA (terminate_session ost tst ctx stream_sid
      wsCloseRaises).2.1.twilio_connections stream_sid = none ∧
    lookupA (terminate_session ost tst ctx stream_sid
      wsCloseRaises).2.1.stream_audio_config stream_sid = none ∧
    lookupA (terminate_session ost tst ctx stream_sid
      wsCloseRaises).2.2.1 stream_sid = none ∧
    (terminate_session ost tst ctx stream_sid wsCloseRaises).2.2.2.2 =
      (match lookupA ost.sessions stream_sid with
       | some _ => wsCloseRaises
       | none => false) := by
  cases h : lookupA ost.sessions stream_sid with
  | none =>
      simp [terminate_session, close_session, h, lookupA_eraseA_self,
        clearContext]
  | some s =>
      simp [terminate_session, close_session, h, lookupA_eraseA_self,
        clearContext]

/-- C6: a second `terminate_session` on the same stream id after a
completed first one raises nothing and is a no-op: the AI-session map,
both telephony registries and the context store are unchanged, nothing
is flushed, and no exception propagates. -/
theorem terminate_twice_is_noop (ost : OpenAIState) (tst : TwilioState)
    (ctx : ConvCtx) (stream_sid : String) (r1 r2 : Bool) :
    terminate_session (terminate_session ost tst ctx stream_sid r1).1
      (terminate_session ost tst ctx stream_sid r1).2.1
      (terminate_session ost tst ctx stream_sid r1).2.2.1 stream_sid r2 =
    ((terminate_session ost tst ctx stream_sid r1).1,
     (terminate_session ost tst ctx stream_sid r1).2.1,
     (terminate_session ost tst ctx stream_sid r1).2.2.1, [], false) := by
  cases h : lookupA ost.sessions stream_sid with
  | none =>
      simp [terminate_session, close_session, h, lookupA_eraseA_self,
        clearContext, eraseA_eraseA, eraseA_of_lookupA_none _ _ h]
  | some s =>
      simp [terminate_session, close_session, h, lookupA_eraseA_self,
        clearContext, eraseA_eraseA]

/-- C7: `convert_audio_to_pcm16` fails with an unsupported-encoding
error for any tag outside the four supported ones, without performing
any rate conversion (the result is the dispatch error whatever the
rates); each supported tag passes the encoding dispatch without error;
and `forward_media_chunk` catches the conversion error and drops the
chunk, leaving the AI client state untouched. -/
theorem unsupported_encoding_raises (enc : String)
    (h : enc ∉ supportedEncodingTags) :
    (∀ raw srcRate tgtRate, convert_audio_to_pcm16 raw enc srcRate tgtRate =
        .error ("Unsupported audio encoding: " ++ enc)) ∧
    (∀ raw tag, tag ∈ supportedEncodingTags →
        ∃ out, decodeByEncoding raw tag = .ok out) ∧
    (∀ tst ost stream_sid chunk cfg,
        lookupA tst.stream_audio_config stream_sid = some cfg →
        cfg.encoding = enc →
        forward_media_chunk tst ost stream_sid chunk = ost) := by
  simp only [supportedEncodingTags, List.mem_cons, List.not_mem_nil,
    or_false] at h
  push_neg at h
  obtain ⟨h1, h2, h3, h4⟩ := h
  have hdec : ∀ raw : List Nat, decodeByEncoding raw enc =
      .error ("Unsupported audio encoding: " ++ enc) := by
    intro raw
    simp [decodeByEncoding, h1, h2, h3, h4]
  refine ⟨?_, ?_, ?_⟩
  · intro raw srcRate tgtRate
    simp [convert_audio_to_pcm16, hdec]
  · intro raw tag htag
    simp only [supportedEncodingTags, List.mem_cons, List.not_mem_nil,
      or_false] at htag
    rcases htag with rfl | rfl | rfl | rfl
    · exact ⟨ulaw2lin raw, by simp [decodeByEncoding]⟩
    · exact ⟨alaw2lin raw, by simp [decodeByEncoding]⟩
    · exact ⟨raw, by simp [decodeByEncoding]⟩
    · exact ⟨raw, by simp [decodeByEncoding]⟩
  · intro tst ost stream_sid chunk cfg hcfg henc
    simp [forward_media_chunk, hcfg, convert_audio_to_pcm16, henc, hdec]

/-- Witness for C7 at the concrete unsupported tag `audio/ogg`. -/
theorem unsupported_encoding_raises_witness :
    "audio/ogg" ∉ supportedEncodingTags ∧
    convert_audio_to_pcm16 [0, 1] "audio/ogg" 8000 16000 =
      .error ("Unsupported audio encoding: " ++ "audio/ogg") :=
  ⟨by decide,
   (unsupported_encoding_raises "audio/ogg" (by decide)).1 [0, 1] 8000 16000⟩

set_option maxHeartbeats 1000000 in
set_option maxRecDepth 10000 in
/-- Per-byte mu-law round trip (helper for C8): decoding a byte to a
16-bit sample, serializing it through two little-endian bytes and
re-encoding yields a byte with the same decoded value, for all 256
byte values. -/
theorem ulaw_byte_roundtrip :
    ∀ b : Fin 256,
      ulawDecodeByte (lin2ulawSample (int16RoundTrip (ulawDecodeByte b.val))) =
        ulawDecodeByte b.val := by
  decide

theorem ulaw2lin_length (bs : List Nat) :
    (ulaw2lin bs).length = 2 * bs.length := by
  induction bs with
  | nil => simp [ulaw2lin]
  | cons b rest ih =>
      simp [ulaw2lin, int16ToBytes, ih]
      omega

/-- Re-encoding a decoded mu-law byte list preserves every decoded
sample value and the byte count (helper for C8). -/
theorem lin2ulawGo_map_ulaw2lin (bs : List Nat) (h : ∀ b ∈ bs, b < 256) :
    (lin2ulawGo (ulaw2lin bs)).map ulawDecodeByte = bs.map ulawDecodeByte ∧
    (lin2ulawGo (ulaw2lin bs)).length = bs.length := by
  induction bs with
  | nil => simp [ulaw2lin, lin2ulawGo]
  | cons b rest ih =>
      have hb : b < 256 := h b (List.mem_cons_self _ _)
      have hrest := ih (fun x hx => h x (List.mem_cons_of_mem _ hx))
      have hstep : lin2ulawGo (ulaw2lin (b :: rest)) =
          lin2ulawSample (int16RoundTrip (ulawDecodeByte b)) ::
            lin2ulawGo (ulaw2lin rest) := rfl
      have hhead : ulawDecodeByte
          (lin2ulawSample (int16RoundTrip (ulawDecodeByte b))) =
          ulawDecodeByte b := ulaw_byte_roundtrip ⟨b, hb⟩
      rw [hstep]
      constructor
      · simp [List.map_cons, hhead, hrest.1]
      · simp [hrest.2]

/-- C8: for a valid mu-law byte sequence `x` and equal source/target
rate `r`, `convert_audio_to_pcm16` performs no resampling (it is
exactly the mu-law decode), `convert_pcm16_to_mulaw` at equal rates
performs no resampling (it is exactly the mu-law encode), and the
composition reproduces `x` within mu-law quantization error: the round
tripped bytes decode to exactly the same PCM16 samples as `x`, with the
same length. -/
theorem mulaw_roundtrip_within_quantization (x : List Nat) (r : Nat)
    (hx : ∀ b ∈ x, b < 256) :
    convert_audio_to_pcm16 x "audio/x-mulaw" r r = .ok (ulaw2lin x) ∧
    (∀ z : List Nat, convert_pcm16_to_mulaw z r r = lin2ulaw z) ∧
    (∃ y, convert_pcm16_to_mulaw (ulaw2lin x) r r = .ok y ∧
      y.map ulawDecodeByte = x.map ulawDecodeByte ∧
      y.length = x.length) := by
  refine ⟨?_, ?_, ?_⟩
  · simp [convert_audio_to_pcm16, decodeByEncoding]
  · intro z
    simp [convert_pcm16_to_mulaw]
  · have heven : ¬ (ulaw2lin x).length % 2 ≠ 0 := by
      rw [ulaw2lin_length]
      omega
    have hmain := lin2ulawGo_map_ulaw2lin x hx
    refine ⟨lin2ulawGo (ulaw2lin x), ?_, hmain.1, hmain.2⟩
    simp [convert_pcm16_to_mulaw, lin2ulaw, heven]

/-- Witness for C8 on the concrete mu-law bytes `[0, 127, 128, 255]`. -/
theorem mulaw_roundtrip_within_quantization_witness :
    convert_audio_to_pcm16 [0, 127, 128, 255] "audio/x-mulaw" 8000 8000 =
      .ok (ulaw2lin [0, 127, 128, 255]) ∧
    ∃ y, convert_pcm16_to_mulaw (ulaw2lin [0, 127, 128, 255]) 8000 8000 =
        .ok y ∧
      y.map ulawDecodeByte = [0, 127, 128, 255].map ulawDecodeByte := by
  obtain ⟨h1, h2, y, h3, h4, h5⟩ :=
    mulaw_roundtrip_within_quantization [0, 127, 128, 255] 8000 (by decide)
  exact ⟨h1, y, h3, h4⟩

/-- C9: for a stream id absent from the corresponding registry, each of
`send_audio_chunk`, `forward_media_chunk`, `send_audio_to_twilio` and
`configure_stream_audio` is a silent no-op: no state changes and
nothing is sent on either socket. -/
theorem unknown_stream_is_noop (ost : OpenAIState) (tst : TwilioState)
    (stream_sid : String)
    (h1 : lookupA ost.sessions stream_sid = none)
    (h2 : lookupA tst.stream_audio_config stream_sid = none)
    (h3 : lookupA tst.twilio_connections stream_sid = none) :
    (∀ chunk, send_audio_chunk ost stream_sid chunk = ost) ∧
    (∀ chunk, forward_media_chunk tst ost stream_sid chunk = ost) ∧
    (∀ payload, send_audio_to_twilio tst stream_sid payload = []) ∧
    (∀ enc rate, configure_stream_audio tst stream_sid enc rate = tst) := by
  refine ⟨?_, ?_, ?_, ?_⟩
  · intro chunk
    simp [send_audio_chunk, h1]
  · intro chunk
    simp [forward_media_chunk, h2]
  · intro payload
    simp [send_audio_to_twilio, h3]
  · intro enc rate
    simp [configure_stream_audio, h2]

/-- Witness for C9 on empty registries and the unknown id `"SX"`. -/
theorem unknown_stream_is_noop_witness :
    send_audio_chunk {} "SX" (some [0, 1]) = {} ∧
    forward_media_chunk {} {} "SX" [0] = {} ∧
    send_audio_to_twilio {} "SX" [0, 1] = [] ∧
    configure_stream_audio {} "SX" (some "audio/L16") (some 16000) = {} := by
  have h := unknown_stream_is_noop {} {} "SX" rfl rfl rfl
  exact ⟨h.1 _, h.2.1 _, h.2.2.1 _, h.2.2.2 _ _⟩

/-- C10: for a registered stream id, `configure_stream_audio` stores
exactly the config whose encoding is replaced only by a truthy (present
and non-empty) encoding and whose sample rate is replaced only by a
truthy (present and non-zero) rate; a non-zero stored rate can never
become 0; and registration stores the defaults mu-law / 8000 Hz. -/
theorem configure_updates_only_truthy_fields (tst : TwilioState)
    (stream_sid : String) (cfg : AudioConfig) (enc : Option String)
    (rate : Option Nat)
    (h : lookupA tst.stream_audio_config stream_sid = some cfg) :
    lookupA (configure_stream_audio tst stream_sid enc
        rate).stream_audio_config stream_sid =
      some { encoding := match enc with
               | some e => if e ≠ "" then e else cfg.encoding
               | none => cfg.encoding,
             sample_rate := match rate with
               | some n => if n ≠ 0 then n else cfg.sample_rate
               | none => cfg.sample_rate } ∧
    (cfg.sample_rate ≠ 0 →
      (match rate with
       | some n => if n ≠ 0 then n else cfg.sample_rate
       | none => cfg.sample_rate) ≠ 0) ∧
    (∀ ws, lookupA (register_stream tst stream_sid
        ws).stream_audio_config stream_sid =
      some ⟨"audio/x-mulaw", 8000⟩) := by
  refine ⟨?_, ?_, ?_⟩
  · rcases enc with _ | e <;> rcases rate with _ | n
    · simp [configure_stream_audio, h, lookupA_setA_self]
    · by_cases hn : n = 0 <;>
        simp [configure_stream_audio, h, lookupA_setA_self, hn]
    · by_cases he : e = "" <;>
        simp [configure_stream_audio, h, lookupA_setA_self, he]
    · by_cases he : e = "" <;> by_cases hn : n = 0 <;>
        simp [configure_stream_audio, h, lookupA_setA_self, he, hn]
  · intro hnz
    rcases rate with _ | n
    · exact hnz
    · by_cases hn : n = 0 <;> simp [hn, hnz]
  · intro ws
    simp [register_stream, lookupA_setA_self]

/-- Witness for C10: configuring with the falsy values `""` and `0`
leaves the registration defaults in place. -/
theorem configure_updates_only_truthy_fields_witness :
    lookupA (configure_stream_audio (register_stream {} "S1" 3) "S1"
        (some "") (some 0)).stream_audio_config "S1" =
      some ⟨"audio/x-mulaw", 8000⟩ := by
  have h := configure_updates_only_truthy_fields (register_stream {} "S1" 3)
    "S1" ⟨"audio/x-mulaw", 8000⟩ (some "") (some 0) (by decide)
  simpa using h.1

end ARS
